import Mathlib

/-!
Shallow embedding of the flume_water_exporter polling core.

Conventions used throughout this development:
* `std::time::Instant` is modelled as a natural number of seconds;
  `Instant::duration_since` is saturating subtraction, exactly as documented
  for the Rust type.
* `chrono` timestamps (`DateTime<Tz>`) are modelled as an instant (epoch
  seconds, an integer) together with the timezone they are rendered in;
  `with_timezone` keeps the instant and swaps the zone, as in chrono.
* `f64` values are modelled as exact rationals; every constant handled by the
  program (1.0, 0.5, 0.25, 0.0 and sample sums) is exactly representable.
* `serde_json::Value` is modelled by the inductive `Json` below, with the
  same indexing behaviour (missing keys and out-of-range indices give null).
* Network requests, the chrono formatter, the IANA timezone database and the
  serde parser are external to the repository and are passed in as oracle
  arguments; everything after they return is translated from the source.
* Rust panics (`unwrap`, `unreachable!`) are modelled by `RunResult.panicked`;
  a graceful `Result`/`Option` return is `Except`/`Option` as in the source.
* Prometheus gauge updates are modelled as an explicit list of `GaugeWrite`
  effects; counter/histogram observability side effects are not modelled.
-/

/-- Model of `serde_json::Value`. -/
inductive Json where
  | null : Json
  | bool (b : Bool) : Json
  | num (q : ℚ) : Json
  | str (s : String) : Json
  | arr (elems : List Json) : Json
  | obj (fields : List (String × Json)) : Json

/-- `value[key]` on a `serde_json::Value`: null when absent or not an object. -/
def Json.get (j : Json) (key : String) : Json :=
  match j with
  | .obj fields =>
    match fields.lookup key with
    | some v => v
    | none => .null
  | _ => .null

/-- `value[i]` on a `serde_json::Value`: null when out of range or not an array. -/
def Json.index (j : Json) (i : ℕ) : Json :=
  match j with
  | .arr elems => (elems.get? i).getD .null
  | _ => .null

/-- `Value::as_str`. -/
def Json.asStr : Json → Option String
  | .str s => some s
  | _ => none

/-- `Value::as_bool`. -/
def Json.asBool : Json → Option Bool
  | .bool b => some b
  | _ => none

/-- `Value::as_f64` (every JSON number is representable as f64 here). -/
def Json.asF64 : Json → Option ℚ
  | .num q => some q
  | _ => none

/-- `Value::as_u64`: numbers that are non-negative integers. -/
def Json.asU64 : Json → Option ℕ
  | .num q => if q.den = 1 ∧ 0 ≤ q.num then some q.num.toNat else none
  | _ => none

/-- `Value::as_array`. -/
def Json.asArray : Json → Option (List Json)
  | .arr elems => some elems
  | _ => none

/-- `Value::as_i64`. -/
def Json.asI64 : Json → Option ℤ
  | .num q => if q.den = 1 then some q.num else none
  | _ => none

/-- An `anyhow::Error`, tagged by where in the pipeline it was produced.
`transport` is a `reqwest` send error (timeout / connect / request failure),
`bodyFetch` a failure reading the response body, `deserializeError` a serde
failure, and `message` an `anyhow!("...")` application-level error. -/
inductive AnyError where
  | transport (msg : String) : AnyError
  | bodyFetch (msg : String) : AnyError
  | deserializeError (msg : String) : AnyError
  | message (msg : String) : AnyError
deriving DecidableEq

/-- Outcome of running a piece of Rust code that may panic
(`unwrap` on `None`, `unreachable!`, index out of bounds). -/
inductive RunResult (α : Type) where
  | ok (a : α) : RunResult α
  | panicked (msg : String) : RunResult α
deriving DecidableEq

/-- A `reqwest::Response` reduced to what the code consumes: the result of
`Response::text()`. -/
structure HttpResponse where
  text : Except AnyError String

/-- An IANA timezone as parsed by `chrono_tz` (identified by its name). -/
abbrev Tz := String

/-- A `chrono::DateTime` value: an instant (epoch seconds) rendered in a
timezone. -/
structure DateTime where
  instant : ℤ
  tz : Tz
deriving DecidableEq

/-- `DateTime::with_timezone`: same instant, re-rendered in another zone. -/
def DateTime.with_timezone (dt : DateTime) (timezone : Tz) : DateTime :=
  { instant := dt.instant, tz := timezone }

namespace Client

/-- `client::UsageProfile` (src/client.rs). -/
structure UsageProfile where
  id : ℕ
  score : ℕ
  residents : String
  bathrooms : String
  irrigation : String
  irrigation_freq : String
  irrigation_max_cycle : ℕ
  has_pool : Bool
deriving DecidableEq

/-- `client::User` (src/client.rs). -/
structure User where
  id : ℤ
  email_address : String
  first_name : String
  phone : String
  status : String
  user_type : String
deriving DecidableEq

/-- `client::Location` (src/client.rs). -/
structure Location where
  id : ℕ
  name : String
  primary_location : Bool
  address : String
  address_2 : String
  city : String
  state : String
  postal_code : String
  country : String
  tz : String
  installation : String
  away_mode : Bool
  usage_profile : UsageProfile
  user : Option User
deriving DecidableEq

/-- `client::Bridge` (src/client.rs). -/
structure Bridge where
  id : String
  last_seen : String
  connected : Bool
  supports_ap : Bool
  product : String
  user : Option User
  location : Option Location
deriving DecidableEq

/-- `client::BudgetPeriod` (src/client.rs). -/
inductive BudgetPeriod where
  | DAILY : BudgetPeriod
  | WEEKLY : BudgetPeriod
  | MONTHLY : BudgetPeriod
deriving DecidableEq

/-- `client::Budget` (src/client.rs); gallons-valued fields kept as in source. -/
structure Budget where
  id : ℕ
  name : String
  period : BudgetPeriod
  value : ℕ
  thresholds : List ℕ
  actual : ℚ
deriving DecidableEq

/-- `client::QueryResult` (src/client.rs). -/
structure QueryResult where
  value : ℚ
deriving DecidableEq

/-- `client::Sensor` (src/client.rs). -/
structure Sensor where
  id : String
  bridge_id : String
  oriented : Bool
  last_seen : String
  connected : Bool
  battery_level : String
  product : String
  user : Option User
  location : Option Location
deriving DecidableEq

/-- `client::Token` (src/client.rs). -/
structure Token where
  token_type : String
  access_token : String
  expires_in : ℕ
  refresh_token : String
deriving DecidableEq

/-- `client::Data`, the untagged payload variants of the envelope
(src/client.rs). `QueryResults` is a `HashMap<String, Vec<QueryResult>>`,
modelled as an association list. -/
inductive Data where
  | Bridge (b : Client.Bridge) : Data
  | Budget (b : Client.Budget) : Data
  | Sensor (s : Client.Sensor) : Data
  | Token (t : Client.Token) : Data
  | User (u : Client.User) : Data
  | QueryResults (q : List (String × List QueryResult)) : Data

/-- `client::Response`, the API envelope (src/client.rs). -/
structure Response where
  success : Bool
  code : ℕ
  message : String
  http_code : ℕ
  http_message : String
  detailed : Json
  data : List Data
  count : ℕ
  pagination : Option Bool

/-- `client::Device` (src/client.rs). -/
inductive Device where
  | Bridge (b : Client.Bridge) : Device
  | Sensor (s : Client.Sensor) : Device

/-- `client::QueryBucket` (src/client.rs). -/
inductive QueryBucket where
  | MIN | HR | DAY | MON | YR
deriving DecidableEq

/-- `client::QueryOperation` (src/client.rs). -/
inductive QueryOperation where
  | SUM | AVG | MIN | MAX | CNT
deriving DecidableEq

/-- `client::QuerySortDirection` (src/client.rs). -/
inductive QuerySortDirection where
  | ASC | DESC
deriving DecidableEq

/-- `client::QueryUnits` (src/client.rs). -/
inductive QueryUnits where
  | GALLONS | LITERS | CUBIC_FEET | CUBIC_METERS
deriving DecidableEq

/-- `client::Query` (src/client.rs). -/
structure Query where
  request_id : String
  bucket : QueryBucket
  since_datetime : String
  until_datetime : Option String
  group_multiplier : Option ℕ
  operation : Option QueryOperation
  sort_direction : Option QuerySortDirection
  units : Option QueryUnits
deriving DecidableEq

/-- `extract_body` in src/client.rs (lines 536-566): a request error or a
body-fetch error is counted and returned as `Err`; otherwise the body text is
returned. The metrics counter side effect is not modelled. -/
def extractBody (response : Except AnyError HttpResponse) : Except AnyError String :=
  match response with
  | .error e => .error e
  | .ok r => r.text

/-- `deserialize` in src/client.rs (lines 504-519); `parseResponse` is the
serde-json parser for the envelope shape, an external oracle. -/
def deserialize (parseResponse : String → Option Response) (body : String) :
    Except AnyError Response :=
  match parseResponse body with
  | some json => .ok json
  | none => .error (.deserializeError "deserialize response")

/-- `json_from` in src/client.rs (lines 568-583): extract the body,
deserialize the envelope, and reject envelopes with `success == false`. -/
def jsonFrom (parseResponse : String → Option Response)
    (response : Except AnyError HttpResponse) : Except AnyError Response :=
  match extractBody response with
  | .error e => .error e
  | .ok body =>
    match deserialize parseResponse body with
    | .error e => .error e
    | .ok result =>
      if !result.success then
        .error (.message ("request error " ++ result.message))
      else
        .ok result

/-- `device` in src/client.rs (lines 528-534): select the device payload
variants, any other payload is a returned error. -/
def device (data : Data) : Except AnyError Device :=
  match data with
  | .Bridge b => .ok (.Bridge b)
  | .Sensor s => .ok (.Sensor s)
  | _ => .error (.message "Unable to find device in response")

/-- The response-handling tail of `Client::query_samples` in src/client.rs
(lines 361-399), after `post`/`json_from` produced a successful envelope
`response`. `response.data[0]` is a `Vec` index and panics when `data` is
empty; a missing `request_id` key is a returned error; an empty result list
is 0.0; otherwise the first result's value is returned. -/
def querySamples (query : Query) (response : Response) :
    RunResult (Except AnyError ℚ) :=
  let request_id := query.request_id
  match response.data.head? with
  | none => .panicked "index out of bounds"
  | some query_results =>
    match query_results with
    | .QueryResults q =>
      match q.lookup request_id with
      | some results =>
        match results.head? with
        | some result => .ok (.ok result.value)
        | none => .ok (.ok 0)
      | none => .ok (.error (.message ("Missing query result " ++ request_id)))
    | _ => .ok (.error (.message "Unexpected response type querying sensor"))

end Client

/-- `sensor::Sensor`, the domain sensor (src/sensor.rs): the wire record
plus the watermark `last_update`. -/
structure Sensor where
  sensor : Client.Sensor
  last_update : DateTime

/-- `TryFrom<client::Sensor> for Sensor` (src/sensor.rs lines 33-57).
`parseTz` is the `chrono_tz` IANA zone parser and `parseRfc3339` the
`chrono` RFC3339 parser, both external oracles.  A missing location and an
unparseable timezone or last-seen time are hard errors; on success the
watermark is the parsed last-seen instant re-rendered in the sensor's own
timezone. -/
def Sensor.tryFrom (parseTz : String → Option Tz)
    (parseRfc3339 : String → Option DateTime) (sensor : Client.Sensor) :
    Except String Sensor :=
  match sensor.location with
  | none => .error "Fetch devices with location"
  | some location =>
    match parseTz location.tz with
    | some timezone =>
      match parseRfc3339 sensor.last_seen with
      | none => .error ("Unable to parse sensor last seen time " ++ sensor.last_seen)
      | some parsed =>
        .ok { sensor := sensor, last_update := parsed.with_timezone timezone }
    | none => .error ("Unknown sensor timezone " ++ location.tz)

/-- `Sensor::with_updated_timestamp` (src/sensor.rs lines 21-30): the same
sensor with the watermark moved to the current instant, kept in the
sensor's timezone. -/
def Sensor.with_updated_timestamp (s : Sensor) (nowUtc : ℤ) : Sensor :=
  { sensor := s.sensor, last_update := { instant := nowUtc, tz := s.last_update.tz } }

/-- `flume::Flume` (src/flume.rs): the credential session state.  The HTTP
client handle is not part of the model; `token_fetch_time` is an `Instant`
in seconds. -/
structure Flume where
  access_token : String
  refresh_token : String
  token_expires_in : ℕ
  token_fetch_time : ℕ
deriving DecidableEq

/-- `Flume::refresh_token_if_expired` (src/flume.rs lines 79-94).
`now` is `Instant::now()`; `refreshResult` is the outcome of the single
`client.refresh_token` call, returning the new token and the `Instant`
captured at the start of that call.  Output: the session state after the
call (unchanged unless a refresh succeeded), the returned `Result<bool>`,
and the number of refresh requests issued. -/
def Flume.refreshTokenIfExpired (s : Flume) (now : ℕ)
    (refreshResult : Except AnyError (Client.Token × ℕ)) :
    Flume × Except AnyError Bool × ℕ :=
  if now - s.token_fetch_time < s.token_expires_in then
    (s, .ok false, 0)
  else
    match refreshResult with
    | .error e => (s, .error e, 1)
    | .ok (token, token_fetch_time) =>
      ({ access_token := token.access_token,
         refresh_token := token.refresh_token,
         token_expires_in := token.expires_in,
         token_fetch_time := token_fetch_time }, .ok true, 1)

/-- Two back-to-back staleness checks with no elapsed time between them:
both run at the same instant `now` against the same refresh oracle.
Returns the final session state and the total number of refresh requests. -/
def Flume.ensureValidTwice (s : Flume) (now : ℕ)
    (refreshResult : Except AnyError (Client.Token × ℕ)) : Flume × ℕ :=
  let r1 := s.refreshTokenIfExpired now refreshResult
  let r2 := r1.1.refreshTokenIfExpired now refreshResult
  (r2.1, r1.2.2 + r2.2.2)

/-- `Flume::query_sensor` (src/flume.rs lines 48-77).  `fmt` is the chrono
formatter for the `"%F %H:%M:00"` pattern (minute-truncated local wall
clock); `nowUtc` is the instant of `Utc::now()`; `queryResult` is the
outcome of `client.query_samples`.  Returns the `Result<(f64, DateTime)>`
of the source together with the query it issued, whose window runs from
the formatted watermark to the formatted now. -/
def Flume.querySensor (fmt : DateTime → String) (nowUtc : ℤ) (sensor : Sensor)
    (queryResult : Except AnyError ℚ) :
    Except AnyError (ℚ × DateTime) × Client.Query :=
  let last_update := sensor.last_update
  let timezone := last_update.tz
  let since_datetime := fmt last_update
  let now : DateTime := { instant := nowUtc, tz := timezone }
  let until_datetime := some (fmt now)
  let query : Client.Query :=
    { request_id := since_datetime
      bucket := .MIN
      since_datetime := since_datetime
      until_datetime := until_datetime
      group_multiplier := none
      operation := some .SUM
      sort_direction := none
      units := some .LITERS }
  match queryResult with
  | .error e => (.error e, query)
  | .ok new_usage => (.ok (new_usage, now), query)

namespace Legacy

/-- `downloader::Sensor` (src/downloader.rs lines 118-122). -/
structure Sensor where
  id : String
  location : String
  last_update : DateTime
deriving DecidableEq

/-- `downloader::Device` (src/downloader.rs lines 113-116). -/
inductive Device where
  | Bridge : Device
  | Sensor (s : Legacy.Sensor) : Device
deriving DecidableEq

/-- One `GaugeVec::set` effect performed by the legacy downloader. -/
structure GaugeWrite where
  gauge : String
  labels : List String
  value : ℚ
deriving DecidableEq

/-- `BRIDGE_ID` (src/downloader.rs line 34). -/
def BRIDGE_ID : ℕ := 1

/-- `SENSOR_ID` (src/downloader.rs line 35). -/
def SENSOR_ID : ℕ := 2

/-- `update_bridge` (src/downloader.rs lines 385-402): unwraps the bridge
fields and sets the bridge gauges. -/
def updateBridge (device : Json) : RunResult (List GaugeWrite × Legacy.Device) :=
  match ((device.get "location").get "name").asStr with
  | none => .panicked "called Option.unwrap on a None value"
  | some location =>
    match (device.get "connected").asBool with
    | none => .panicked "called Option.unwrap on a None value"
    | some c =>
      let connected : ℚ := if c then 1 else 0
      match (device.get "product").asStr with
      | none => .panicked "called Option.unwrap on a None value"
      | some product =>
        .ok ([{ gauge := "flume_water_bridge_product_info",
                labels := [location, product], value := 1 },
              { gauge := "flume_water_bridge_connected",
                labels := [location], value := connected }],
             .Bridge)

/-- `update_sensor` (src/downloader.rs lines 404-444): unwraps the sensor
fields, maps the battery level with `_ => unreachable!(...)`, sets the
sensor gauges, and parses the timezone and last-seen time with `unwrap`. -/
def updateSensor (parseTz : String → Option Tz)
    (parseRfc3339 : String → Option DateTime) (device : Json) :
    RunResult (List GaugeWrite × Legacy.Device) :=
  match (device.get "id").asStr with
  | none => .panicked "called Option.unwrap on a None value"
  | some id =>
    match (device.get "last_seen").asStr with
    | none => .panicked "called Option.unwrap on a None value"
    | some last_seen =>
      match (device.get "connected").asBool with
      | none => .panicked "called Option.unwrap on a None value"
      | some c =>
        let connected : ℚ := if c then 1 else 0
        match (device.get "product").asStr with
        | none => .panicked "called Option.unwrap on a None value"
        | some product =>
          match (device.get "battery_level").asStr with
          | none => .panicked "called Option.unwrap on a None value"
          | some battery_level =>
            match
              (match battery_level with
               | "high" => RunResult.ok (1 : ℚ)
               | "medium" => RunResult.ok ((1 : ℚ)/2)
               | "low" => RunResult.ok ((1 : ℚ)/4)
               | _ => RunResult.panicked ("Unknown battery level " ++ battery_level))
            with
            | .panicked msg => .panicked msg
            | .ok battery =>
              match ((device.get "location").get "name").asStr with
              | none => .panicked "called Option.unwrap on a None value"
              | some location =>
                match ((device.get "location").get "tz").asStr with
                | none => .panicked "called Option.unwrap on a None value"
                | some tzName =>
                  let writes : List GaugeWrite :=
                    [{ gauge := "flume_water_sensor_product_info",
                       labels := [location, product], value := 1 },
                     { gauge := "flume_water_sensor_battery_info",
                       labels := [location], value := battery },
                     { gauge := "flume_water_sensor_connected",
                       labels := [location], value := connected }]
                  match parseTz tzName with
                  | none => .panicked "called Result.unwrap on an Err value"
                  | some timezone =>
                    match parseRfc3339 last_seen with
                    | none => .panicked "called Result.unwrap on an Err value"
                    | some parsed =>
                      .ok (writes,
                           .Sensor { id := id, location := location,
                                     last_update := parsed.with_timezone timezone })

/-- `device` (src/downloader.rs lines 375-383): dispatch on the wire-level
`type` tag; tags other than `BRIDGE_ID`/`SENSOR_ID` hit
`unreachable!("unknown device type {}")`. -/
def device (parseTz : String → Option Tz)
    (parseRfc3339 : String → Option DateTime) (dev : Json) :
    RunResult (List GaugeWrite × Legacy.Device) :=
  match (dev.get "type").asU64 with
  | none => .panicked "called Option.unwrap on a None value"
  | some device_type =>
    if device_type = BRIDGE_ID then updateBridge dev
    else if device_type = SENSOR_ID then updateSensor parseTz parseRfc3339 dev
    else .panicked ("unknown device type " ++ toString device_type)

/-- `Downloader::query_sensor` (src/downloader.rs lines 266-299).  `fmt` is
the chrono `"%F %T"` formatter; `postResult` is the `Option` returned by
`post` (`None` on a handled request error), which the source immediately
`unwrap`s.  Returns the sensor as it stands after the call together with
the amount added to the usage counter.  The source never assigns
`sensor.last_update`: on an empty result array it returns early, and on a
non-empty one its final line merely reads `sensor.last_update`, so the
watermark is returned unchanged in every non-panicking path. -/
def querySensor (fmt : DateTime → String) (sensor : Legacy.Sensor)
    (postResult : Option Json) : RunResult (Legacy.Sensor × ℚ) :=
  let since_time := fmt sensor.last_update
  match postResult with
  | none => .panicked "called Option.unwrap on a None value"
  | some json =>
    let query_result := ((json.get "data").index 0).get since_time
    match query_result.asArray with
    | none => .panicked "called Option.unwrap on a None value"
    | some results =>
      if results.isEmpty then .ok (sensor, 0)
      else
        match ((query_result.index 0).get "value").asF64 with
        | none => .panicked "called Option.unwrap on a None value"
        | some value => .ok (sensor, value)

/-- `extract_body` (src/downloader.rs lines 469-512): a request or
body-fetch error is logged, counted, sent on the error channel when one was
supplied, and turned into a graceful `None`.  Output: the errors delivered
to the process-wide channel, and the body when one was obtained. -/
def extractBody (response : Except AnyError HttpResponse) (sendError : Bool) :
    List AnyError × Option String :=
  match response with
  | .error e => ((if sendError then [e] else []), none)
  | .ok r =>
    match r.text with
    | .ok b => ([], some b)
    | .error e => ((if sendError then [e] else []), none)

/-- `deserialize` (src/downloader.rs lines 446-467): a serde failure is
logged, counted, sent on the error channel when one was supplied, and turned
into `None`. -/
def deserialize (parseJson : String → Option Json) (body : String)
    (sendError : Bool) : List AnyError × Option Json :=
  match parseJson body with
  | some j => ([], some j)
  | none =>
    ((if sendError then [AnyError.deserializeError "deserialize response"] else []),
     none)

/-- `json_from` (src/downloader.rs lines 514-525): `extract_body(...)` is
immediately `unwrap`ped, so the `None` produced for a handled request error
is a panic here. -/
def jsonFrom (parseJson : String → Option Json)
    (response : Except AnyError HttpResponse) (sendError : Bool) :
    List AnyError × RunResult (Option Json) :=
  let extracted := extractBody response sendError
  match extracted.2 with
  | none => (extracted.1, .panicked "called Option.unwrap on a None value")
  | some body =>
    let deserialized := deserialize parseJson body sendError
    (extracted.1 ++ deserialized.1, .ok deserialized.2)

end Legacy

/-- `wait_for_error` (src/main.rs lines 76-85): receive one error from the
process-wide channel (substituting a bug-report error when the channel is
closed), log it, and return exit code 1, which `main` passes to
`std::process::exit`. -/
def waitForError (received : Option AnyError) : AnyError × ℤ :=
  let error :=
    match received with
    | some e => e
    | none => AnyError.message "Error reporting channel closed unexpectedly, bug?"
  (error, 1)

/-- A sensor device record as delivered on the wire, with a chosen battery
level, shaped as `update_sensor` expects (src/downloader.rs). -/
def Legacy.sensorRecord (battery_level : String) : Json :=
  .obj [("id", .str "sensor-1"),
        ("type", .num 2),
        ("last_seen", .str "2024-01-01T00:00:00Z"),
        ("connected", .bool true),
        ("product", .str "flume2"),
        ("battery_level", .str battery_level),
        ("location", .obj [("name", .str "Home"), ("tz", .str "America/New_York")])]

/-- A bridge device record as delivered on the wire, shaped as
`update_bridge` expects (src/downloader.rs). -/
def Legacy.bridgeRecord : Json :=
  .obj [("id", .str "bridge-1"),
        ("type", .num 1),
        ("location", .obj [("name", .str "Home")]),
        ("connected", .bool true),
        ("product", .str "flume1")]

/-- Claim C3: the credential session refreshes exactly when
`now - issued_at >= expires_in`; a token with `expires_in = 3600` is used
unchanged at `issued_at + 3599` (no refresh call) and triggers exactly one
refresh call at `issued_at + 3601`. -/
theorem claim_C3 :
    (∀ (s : Flume) (now : ℕ) (refreshResult : Except AnyError (Client.Token × ℕ)),
      (s.refreshTokenIfExpired now refreshResult).2.2 = 1 ↔
        s.token_expires_in ≤ now - s.token_fetch_time) ∧
    (∀ refreshResult,
      Flume.refreshTokenIfExpired ⟨"a", "r", 3600, 0⟩ 3599 refreshResult =
        (⟨"a", "r", 3600, 0⟩, .ok false, 0)) ∧
    (∀ (token : Client.Token) (tft : ℕ),
      (Flume.refreshTokenIfExpired ⟨"a", "r", 3600, 0⟩ 3601
          (.ok (token, tft))).2.2 = 1) := by
  refine ⟨?_, ?_, ?_⟩
  · intro s now refreshResult
    by_cases h : now - s.token_fetch_time < s.token_expires_in
    · simp [Flume.refreshTokenIfExpired, h]
    · cases refreshResult <;> simp [Flume.refreshTokenIfExpired, h] <;> omega
  · intro refreshResult
    rfl
  · intro token tft
    rfl

/-- Claim C4: a failed refresh leaves the whole credential state unchanged
and propagates the error with no internal retry (a single refresh request);
a successful refresh replaces all four credential fields together from the
returned token. -/
theorem claim_C4 (s : Flume) (now : ℕ) (e : AnyError) (token : Client.Token)
    (tft : ℕ) :
    (s.refreshTokenIfExpired now (.error e)).1 = s ∧
    (s.refreshTokenIfExpired now (.error e)).2.2 ≤ 1 ∧
    (s.token_expires_in ≤ now - s.token_fetch_time →
      s.refreshTokenIfExpired now (.error e) = (s, .error e, 1)) ∧
    (s.token_expires_in ≤ now - s.token_fetch_time →
      s.refreshTokenIfExpired now (.ok (token, tft)) =
        (⟨token.access_token, token.refresh_token, token.expires_in, tft⟩,
         .ok true, 1)) := by
  by_cases h : now - s.token_fetch_time < s.token_expires_in
  · refine ⟨by simp [Flume.refreshTokenIfExpired, h], by simp [Flume.refreshTokenIfExpired, h],
      fun hle => absurd hle (by omega), fun hle => absurd hle (by omega)⟩
  · exact ⟨by simp [Flume.refreshTokenIfExpired, h],
      by simp [Flume.refreshTokenIfExpired, h],
      fun _ => by simp [Flume.refreshTokenIfExpired, h],
      fun _ => by simp [Flume.refreshTokenIfExpired, h]⟩

/-- Witness for C4 at a stale credential: the error case leaves the state
untouched after one refresh request, the success case replaces it wholesale. -/
theorem claim_C4_witness :
    (Flume.refreshTokenIfExpired ⟨"a", "r", 0, 0⟩ 0 (.error (.transport "t")) =
      (⟨"a", "r", 0, 0⟩, .error (.transport "t"), 1)) ∧
    (Flume.refreshTokenIfExpired ⟨"a", "r", 0, 0⟩ 0
        (.ok (⟨"bearer", "a2", 3600, "r2"⟩, 0)) =
      (⟨"a2", "r2", 3600, 0⟩, .ok true, 1)) :=
  ⟨(claim_C4 ⟨"a", "r", 0, 0⟩ 0 (.transport "t") ⟨"bearer", "a2", 3600, "r2"⟩ 0).2.2.1
      (by decide),
   (claim_C4 ⟨"a", "r", 0, 0⟩ 0 (.transport "t") ⟨"bearer", "a2", 3600, "r2"⟩ 0).2.2.2
      (by decide)⟩

/-- Claim C9 (amended): two staleness checks at the same instant perform at
most one refresh call, provided the refresh (if one is performed) succeeds
and returns a token that is not already stale at its own fetch instant —
in particular a token with positive `expires_in` when no time elapses. -/
theorem claim_C9 (s : Flume) (now : ℕ) (token : Client.Token) (tft : ℕ)
    (h : now - tft < token.expires_in) :
    (s.ensureValidTwice now (.ok (token, tft))).2 ≤ 1 := by
  unfold Flume.ensureValidTwice
  by_cases h1 : now - s.token_fetch_time < s.token_expires_in
  · simp [Flume.refreshTokenIfExpired, h1]
  · simp [Flume.refreshTokenIfExpired, h1, h]

/-- Witness for C9 (amended): a stale credential refreshed once with a
3600-second token is not refreshed again by the second check. -/
theorem claim_C9_witness :
    ((0 : ℕ) - 0 < (⟨"bearer", "a2", 3600, "r2"⟩ : Client.Token).expires_in) ∧
    (Flume.ensureValidTwice ⟨"a", "r", 0, 0⟩ 0
        (.ok (⟨"bearer", "a2", 3600, "r2"⟩, 0))).2 ≤ 1 :=
  ⟨by decide,
   claim_C9 ⟨"a", "r", 0, 0⟩ 0 ⟨"bearer", "a2", 3600, "r2"⟩ 0 (by decide)⟩

/-- Counterexample to C9 as stated: when the (stale) session's refresh
returns a token with `expires_in = 0`, the second staleness check at the
same instant finds `0 - issued_at >= 0` and refreshes again — two refresh
calls, not at most one. -/
theorem claim_C9_counterexample :
    (Flume.ensureValidTwice ⟨"a", "r", 0, 0⟩ 0
        (.ok (⟨"bearer", "a2", 0, "r2"⟩, 0))).2 = 2 ∧
    ¬ ((Flume.ensureValidTwice ⟨"a", "r", 0, 0⟩ 0
        (.ok (⟨"bearer", "a2", 0, "r2"⟩, 0))).2 ≤ 1) := by
  exact ⟨rfl, by decide⟩

/-- Claim C8: an envelope that parses but carries `success = false` makes
`json_from` return an application-level error — no success value is ever
built from such an envelope — while `success = true` envelopes are passed
through. -/
theorem claim_C8 (parseResponse : String → Option Client.Response)
    (response : Except AnyError HttpResponse) :
    (∀ r : Client.Response,
      Client.jsonFrom parseResponse response = .ok r → r.success = true) ∧
    (∀ (body : String) (result : Client.Response),
      Client.extractBody response = .ok body →
      parseResponse body = some result →
      result.success = false →
      Client.jsonFrom parseResponse response =
        .error (.message ("request error " ++ result.message))) := by
  constructor
  · intro r h
    cases hE : Client.extractBody response with
    | error e => simp [Client.jsonFrom, hE] at h
    | ok body =>
      cases hP : parseResponse body with
      | none => simp [Client.jsonFrom, Client.deserialize, hE, hP] at h
      | some result =>
        by_cases hs : result.success
        · have hr : result = r := by
            simpa [Client.jsonFrom, Client.deserialize, hE, hP, hs] using h
          rw [← hr]
          exact hs
        · simp [Client.jsonFrom, Client.deserialize, hE, hP, hs] at h
  · intro body result hE hP hs
    simp [Client.jsonFrom, Client.deserialize, hE, hP, hs]

/-- Witness for C8: a `success = true` envelope is passed through (so its
success flag really is true), and a concrete `success = false` envelope
with message "oops" is rejected as an application error. -/
theorem claim_C8_witness :
    ((⟨true, 200, "", 200, "", Json.null, [], 0, none⟩ : Client.Response).success
      = true) ∧
    (Client.jsonFrom
        (fun _ => some (⟨false, 400, "oops", 400, "", Json.null, [], 0, none⟩ :
          Client.Response))
        (.ok ⟨.ok "body"⟩) =
      .error (.message ("request error " ++
        (⟨false, 400, "oops", 400, "", Json.null, [], 0, none⟩ :
          Client.Response).message))) :=
  ⟨(claim_C8 (fun _ => some ⟨true, 200, "", 200, "", Json.null, [], 0, none⟩)
      (.ok ⟨.ok "body"⟩)).1 ⟨true, 200, "", 200, "", Json.null, [], 0, none⟩ rfl,
   (claim_C8 (fun _ => some ⟨false, 400, "oops", 400, "", Json.null, [], 0, none⟩)
      (.ok ⟨.ok "body"⟩)).2 "body"
      ⟨false, 400, "oops", 400, "", Json.null, [], 0, none⟩ rfl rfl rfl⟩

/-- Claim C10: in `Client::query_samples`, a query-results map lacking the
request's `request_id` key is a returned error (not zero usage); the key
mapping to an empty result list returns exactly 0.0; otherwise the first
result's value is returned. -/
theorem claim_C10 (query : Client.Query) (response : Client.Response)
    (q : List (String × List Client.QueryResult))
    (h : response.data.head? = some (.QueryResults q)) :
    (q.lookup query.request_id = none →
      Client.querySamples query response =
        .ok (.error (.message ("Missing query result " ++ query.request_id)))) ∧
    (q.lookup query.request_id = some [] →
      Client.querySamples query response = .ok (.ok 0)) ∧
    (∀ (r : Client.QueryResult) (rs : List Client.QueryResult),
      q.lookup query.request_id = some (r :: rs) →
      Client.querySamples query response = .ok (.ok r.value)) := by
  refine ⟨?_, ?_, ?_⟩
  · intro hl
    simp [Client.querySamples, h, hl]
  · intro hl
    simp [Client.querySamples, h, hl]
  · intro r rs hl
    simp [Client.querySamples, h, hl]

/-- Witness for C10: with the map holding key "w" (value 7.0) and key "e"
(empty result list), looking up "x" errors, "e" gives 0.0, "w" gives 7.0. -/
theorem claim_C10_witness :
    (Client.querySamples ⟨"x", .MIN, "s", none, none, none, none, none⟩
        ⟨true, 200, "", 200, "", Json.null,
         [.QueryResults [("w", [⟨7⟩]), ("e", [])]], 1, none⟩ =
      .ok (.error (.message ("Missing query result " ++ "x")))) ∧
    (Client.querySamples ⟨"e", .MIN, "s", none, none, none, none, none⟩
        ⟨true, 200, "", 200, "", Json.null,
         [.QueryResults [("w", [⟨7⟩]), ("e", [])]], 1, none⟩ =
      .ok (.ok 0)) ∧
    (Client.querySamples ⟨"w", .MIN, "s", none, none, none, none, none⟩
        ⟨true, 200, "", 200, "", Json.null,
         [.QueryResults [("w", [⟨7⟩]), ("e", [])]], 1, none⟩ =
      .ok (.ok (⟨7⟩ : Client.QueryResult).value)) :=
  ⟨(claim_C10 ⟨"x", .MIN, "s", none, none, none, none, none⟩
      ⟨true, 200, "", 200, "", Json.null,
       [.QueryResults [("w", [⟨7⟩]), ("e", [])]], 1, none⟩
      [("w", [⟨7⟩]), ("e", [])] rfl).1 rfl,
   (claim_C10 ⟨"e", .MIN, "s", none, none, none, none, none⟩
      ⟨true, 200, "", 200, "", Json.null,
       [.QueryResults [("w", [⟨7⟩]), ("e", [])]], 1, none⟩
      [("w", [⟨7⟩]), ("e", [])] rfl).2.1 rfl,
   (claim_C10 ⟨"w", .MIN, "s", none, none, none, none, none⟩
      ⟨true, 200, "", 200, "", Json.null,
       [.QueryResults [("w", [⟨7⟩]), ("e", [])]], 1, none⟩
      [("w", [⟨7⟩]), ("e", [])] rfl).2.2 ⟨7⟩ [] rfl⟩

/-- Claim C5 (code bug): the battery mapping in `update_sensor`
(src/downloader.rs) sends "high"/"medium"/"low" to 1.0/0.5/0.25, but any
other battery-level string hits `unreachable!("Unknown battery level ...")`
— a panic, not the claimed non-fatal 0.0.  The first conjunct evaluates the
code at the failing input (battery level "unknown", for any timezone and
timestamp parser); the rest evaluate the three recognized levels. -/
theorem claim_C5 :
    (∀ (parseTz : String → Option Tz) (parseRfc3339 : String → Option DateTime),
      Legacy.updateSensor parseTz parseRfc3339 (Legacy.sensorRecord "unknown") =
        .panicked ("Unknown battery level " ++ "unknown")) ∧
    (Legacy.updateSensor (fun s => some s) (fun s => some ⟨0, s⟩)
        (Legacy.sensorRecord "high") =
      .ok ([⟨"flume_water_sensor_product_info", ["Home", "flume2"], 1⟩,
            ⟨"flume_water_sensor_battery_info", ["Home"], 1⟩,
            ⟨"flume_water_sensor_connected", ["Home"], 1⟩],
           .Sensor ⟨"sensor-1", "Home", ⟨0, "America/New_York"⟩⟩)) ∧
    (Legacy.updateSensor (fun s => some s) (fun s => some ⟨0, s⟩)
        (Legacy.sensorRecord "medium") =
      .ok ([⟨"flume_water_sensor_product_info", ["Home", "flume2"], 1⟩,
            ⟨"flume_water_sensor_battery_info", ["Home"], (1 : ℚ)/2⟩,
            ⟨"flume_water_sensor_connected", ["Home"], 1⟩],
           .Sensor ⟨"sensor-1", "Home", ⟨0, "America/New_York"⟩⟩)) ∧
    (Legacy.updateSensor (fun s => some s) (fun s => some ⟨0, s⟩)
        (Legacy.sensorRecord "low") =
      .ok ([⟨"flume_water_sensor_product_info", ["Home", "flume2"], 1⟩,
            ⟨"flume_water_sensor_battery_info", ["Home"], (1 : ℚ)/4⟩,
            ⟨"flume_water_sensor_connected", ["Home"], 1⟩],
           .Sensor ⟨"sensor-1", "Home", ⟨0, "America/New_York"⟩⟩)) :=
  ⟨fun _ _ => rfl, rfl, rfl, rfl⟩

/-- Claim C6 (code bug): the `device` dispatch in src/downloader.rs maps
tag 1 to a bridge and tag 2 to a sensor, but a record with any other type
tag hits `unreachable!("unknown device type ...")` — a panic, not the
claimed returned parse error.  The newer `device` in src/client.rs does
return an error value for a payload that is not a device. -/
theorem claim_C6 :
    (∀ (parseTz : String → Option Tz) (parseRfc3339 : String → Option DateTime),
      Legacy.device parseTz parseRfc3339
        (.obj [("type", .num 3), ("connected", .bool true)]) =
        .panicked ("unknown device type " ++ "3")) ∧
    (∀ (parseTz : String → Option Tz) (parseRfc3339 : String → Option DateTime),
      Legacy.device parseTz parseRfc3339 Legacy.bridgeRecord =
        .ok ([⟨"flume_water_bridge_product_info", ["Home", "flume1"], 1⟩,
              ⟨"flume_water_bridge_connected", ["Home"], 1⟩], .Bridge)) ∧
    (Legacy.device (fun s => some s) (fun s => some ⟨0, s⟩)
        (Legacy.sensorRecord "high") =
      .ok ([⟨"flume_water_sensor_product_info", ["Home", "flume2"], 1⟩,
            ⟨"flume_water_sensor_battery_info", ["Home"], 1⟩,
            ⟨"flume_water_sensor_connected", ["Home"], 1⟩],
           .Sensor ⟨"sensor-1", "Home", ⟨0, "America/New_York"⟩⟩)) ∧
    (∀ b : Client.Bridge, Client.device (.Bridge b) = .ok (.Bridge b)) ∧
    (∀ s : Client.Sensor, Client.device (.Sensor s) = .ok (.Sensor s)) ∧
    (∀ u : Client.User, Client.device (.User u) =
      .error (.message "Unable to find device in response")) :=
  ⟨fun _ _ => rfl, fun _ _ => rfl, rfl, fun _ => rfl, fun _ => rfl, fun _ => rfl⟩

/-- Claim C2 (code bug): in src/downloader.rs, `json_from` immediately
`unwrap`s the `Option` that `extract_body` deliberately returns as `None`
after handling a transport error, so a transport failure panics the polling
task (first conjunct: no error forwarded, panic) instead of being absorbed;
with an error channel supplied the transport error is, additionally,
forwarded to the fatal channel (second conjunct).  The third conjunct is
`wait_for_error` in src/main.rs: any error delivered on the process-wide
channel produces exit code 1. -/
theorem claim_C2 :
    (∀ (parseJson : String → Option Json) (e : AnyError),
      Legacy.jsonFrom parseJson (.error e) false =
        ([], .panicked "called Option.unwrap on a None value")) ∧
    (∀ (parseJson : String → Option Json) (e : AnyError),
      Legacy.jsonFrom parseJson (.error e) true =
        ([e], .panicked "called Option.unwrap on a None value")) ∧
    (∀ received : Option AnyError, (waitForError received).2 = 1) :=
  ⟨fun _ _ => rfl, fun _ _ => rfl, fun _ => rfl⟩

/-- Claim C1 (code bug): `Flume::query_sensor` (src/flume.rs) does query
the window from the formatted watermark to the formatted now and returns
`now` for the caller; but the `Downloader::query_sensor` of
src/downloader.rs never advances the watermark: on a well-formed empty
result array it returns early with the sensor unchanged (second conjunct),
and even on a non-empty result it only adds the value to the usage counter,
leaving `last_update` unchanged (third conjunct) — so the same window is
queried again on the next tick, contradicting the claimed unconditional
advance to `now`. -/
theorem claim_C1 :
    (∀ (fmt : DateTime → String) (nowUtc : ℤ) (sensor : Sensor) (usage : ℚ),
      (Flume.querySensor fmt nowUtc sensor (.ok usage)).2.since_datetime =
        fmt sensor.last_update ∧
      (Flume.querySensor fmt nowUtc sensor (.ok usage)).2.until_datetime =
        some (fmt ⟨nowUtc, sensor.last_update.tz⟩) ∧
      (Flume.querySensor fmt nowUtc sensor (.ok usage)).1 =
        .ok (usage, ⟨nowUtc, sensor.last_update.tz⟩)) ∧
    (Legacy.querySensor (fun dt => toString dt.instant)
        ⟨"sensor-1", "Home", ⟨0, "America/New_York"⟩⟩
        (some (.obj [("data", .arr [.obj [("0", .arr [])]])])) =
      .ok (⟨"sensor-1", "Home", ⟨0, "America/New_York"⟩⟩, 0)) ∧
    (Legacy.querySensor (fun dt => toString dt.instant)
        ⟨"sensor-1", "Home", ⟨0, "America/New_York"⟩⟩
        (some (.obj [("data",
          .arr [.obj [("0", .arr [.obj [("value", .num 5)]])]])])) =
      .ok (⟨"sensor-1", "Home", ⟨0, "America/New_York"⟩⟩, 5)) :=
  ⟨fun _ _ _ _ => ⟨rfl, rfl, rfl⟩, rfl, rfl⟩

/-- Claim C7: the sensor adapter rejects a record without a resolved
location, rejects a timezone string the IANA database does not know (never
defaulting to UTC), rejects an unparseable last-seen time, and on success
sets the initial watermark to the parsed RFC3339 last-seen instant
re-rendered in the sensor's own timezone. -/
theorem claim_C7 (parseTz : String → Option Tz)
    (parseRfc3339 : String → Option DateTime) (s : Client.Sensor) :
    (s.location = none →
      Sensor.tryFrom parseTz parseRfc3339 s =
        .error "Fetch devices with location") ∧
    (∀ loc : Client.Location, s.location = some loc → parseTz loc.tz = none →
      Sensor.tryFrom parseTz parseRfc3339 s =
        .error ("Unknown sensor timezone " ++ loc.tz)) ∧
    (∀ (loc : Client.Location) (timezone : Tz), s.location = some loc →
      parseTz loc.tz = some timezone → parseRfc3339 s.last_seen = none →
      Sensor.tryFrom parseTz parseRfc3339 s =
        .error ("Unable to parse sensor last seen time " ++ s.last_seen)) ∧
    (∀ (loc : Client.Location) (timezone : Tz) (parsed : DateTime),
      s.location = some loc → parseTz loc.tz = some timezone →
      parseRfc3339 s.last_seen = some parsed →
      Sensor.tryFrom parseTz parseRfc3339 s =
        .ok { sensor := s, last_update := ⟨parsed.instant, timezone⟩ }) := by
  refine ⟨?_, ?_, ?_, ?_⟩
  · intro h
    simp [Sensor.tryFrom, h]
  · intro loc h1 h2
    simp [Sensor.tryFrom, h1, h2]
  · intro loc timezone h1 h2 h3
    simp [Sensor.tryFrom, h1, h2, h3]
  · intro loc timezone parsed h1 h2 h3
    simp [Sensor.tryFrom, h1, h2, h3, DateTime.with_timezone]

/-- Witness for C7 on a concrete wire sensor: no location errors; an
unknown timezone errors; an unparseable last-seen time errors; and with
both parses succeeding the watermark is the parsed instant in the sensor's
zone. -/
theorem claim_C7_witness :
    (Sensor.tryFrom (fun _ => none) (fun _ => none)
        ⟨"s1", "b1", true, "2024-01-01T00:00:00Z", true, "high", "flume2",
         none, none⟩ =
      .error "Fetch devices with location") ∧
    (Sensor.tryFrom (fun _ => none) (fun _ => none)
        ⟨"s1", "b1", true, "2024-01-01T00:00:00Z", true, "high", "flume2",
         none, some ⟨1, "Home", true, "1 Main St", "", "Springfield", "IL",
                     "62701", "US", "Not/AZone", "indoor", false,
                     ⟨1, 1, "2", "2", "none", "never", 0, false⟩, none⟩⟩ =
      .error ("Unknown sensor timezone " ++ "Not/AZone")) ∧
    (Sensor.tryFrom (fun s => some s) (fun _ => none)
        ⟨"s1", "b1", true, "not-a-time", true, "high", "flume2",
         none, some ⟨1, "Home", true, "1 Main St", "", "Springfield", "IL",
                     "62701", "US", "America/New_York", "indoor", false,
                     ⟨1, 1, "2", "2", "none", "never", 0, false⟩, none⟩⟩ =
      .error ("Unable to parse sensor last seen time " ++ "not-a-time")) ∧
    (Sensor.tryFrom (fun s => some s) (fun _ => some ⟨1704067200, "+00:00"⟩)
        ⟨"s1", "b1", true, "2024-01-01T00:00:00Z", true, "high", "flume2",
         none, some ⟨1, "Home", true, "1 Main St", "", "Springfield", "IL",
                     "62701", "US", "America/New_York", "indoor", false,
                     ⟨1, 1, "2", "2", "none", "never", 0, false⟩, none⟩⟩ =
      .ok { sensor :=
              ⟨"s1", "b1", true, "2024-01-01T00:00:00Z", true, "high", "flume2",
               none, some ⟨1, "Home", true, "1 Main St", "", "Springfield", "IL",
                           "62701", "US", "America/New_York", "indoor", false,
                           ⟨1, 1, "2", "2", "none", "never", 0, false⟩, none⟩⟩,
            last_update := ⟨1704067200, "America/New_York"⟩ }) :=
  ⟨(claim_C7 (fun _ => none) (fun _ => none)
      ⟨"s1", "b1", true, "2024-01-01T00:00:00Z", true, "high", "flume2",
       none, none⟩).1 rfl,
   (claim_C7 (fun _ => none) (fun _ => none)
      ⟨"s1", "b1", true, "2024-01-01T00:00:00Z", true, "high", "flume2",
       none, some ⟨1, "Home", true, "1 Main St", "", "Springfield", "IL",
                   "62701", "US", "Not/AZone", "indoor", false,
                   ⟨1, 1, "2", "2", "none", "never", 0, false⟩, none⟩⟩).2.1
      ⟨1, "Home", true, "1 Main St", "", "Springfield", "IL",
       "62701", "US", "Not/AZone", "indoor", false,
       ⟨1, 1, "2", "2", "none", "never", 0, false⟩, none⟩ rfl rfl,
   (claim_C7 (fun s => some s) (fun _ => none)
      ⟨"s1", "b1", true, "not-a-time", true, "high", "flume2",
       none, some ⟨1, "Home", true, "1 Main St", "", "Springfield", "IL",
                   "62701", "US", "America/New_York", "indoor", false,
                   ⟨1, 1, "2", "2", "none", "never", 0, false⟩, none⟩⟩).2.2.1
      ⟨1, "Home", true, "1 Main St", "", "Springfield", "IL",
       "62701", "US", "America/New_York", "indoor", false,
       ⟨1, 1, "2", "2", "none", "never", 0, false⟩, none⟩
      "America/New_York" rfl rfl rfl,
   (claim_C7 (fun s => some s) (fun _ => some ⟨1704067200, "+00:00"⟩)
      ⟨"s1", "b1", true, "2024-01-01T00:00:00Z", true, "high", "flume2",
       none, some ⟨1, "Home", true, "1 Main St", "", "Springfield", "IL",
                   "62701", "US", "America/New_York", "indoor", false,
                   ⟨1, 1, "2", "2", "none", "never", 0, false⟩, none⟩⟩).2.2.2
      ⟨1, "Home", true, "1 Main St", "", "Springfield", "IL",
       "62701", "US", "America/New_York", "indoor", false,
       ⟨1, 1, "2", "2", "none", "never", 0, false⟩, none⟩
      "America/New_York" ⟨1704067200, "+00:00"⟩ rfl rfl rfl⟩
